import Mathlib

/-!
Verification development for the `cc` CLI repository.

The definitions below shallowly embed the pure core of the repository:
the Terraform template engine (`internal/terraform/templates.go`,
`internal/terraform/terraform.go`) and the AI explanation dispatcher
(`internal/explain/tf_explain.go`, `internal/explain/ollama.go`,
`internal/explain/claude.go`).  Go strings become `String`, Go
`map[string]string` becomes an association list `List (String × String)`
(lookup of a fixed key is deterministic; iteration order is the order of
the list, which models the unordered iteration of a Go map: two
association lists that are permutations of each other represent the same
map), I/O effects (filesystem, HTTP) become explicit environment records,
and fallible Go calls returning `(T, error)` become `Except String T`.
Literal braces inside generated Terraform text are written with the
escapes `\x7b` and `\x7d`.
-/

namespace CC

/-- `VariableTemplate` from templates.go: one entry of the `variables` list. -/
structure VariableTemplate where
  name : String
  description : String
  type : String
  default : String
deriving DecidableEq, Repr

/-- `OutputTemplate` from templates.go: one entry of the `outputs` list. -/
structure OutputTemplate where
  name : String
  description : String
  value : String
deriving DecidableEq, Repr

/-- `DataTemplate` from templates.go: one entry of the `data` list.
`config` embeds the Go `map[string]string`, iterated in list order. -/
structure DataTemplate where
  type : String
  name : String
  config : List (String × String)
  comment : String
deriving DecidableEq, Repr

/-- The nested `Provider` struct of `ProviderTemplateConfig` in templates.go. -/
structure ProviderSettings where
  region : String
  profile : String
  credentials : String
  tags : List (String × String)
  extra : List (String × String)
deriving DecidableEq, Repr

/-- `ProviderTemplateConfig` from templates.go. -/
structure ProviderTemplateConfig where
  provider : ProviderSettings
  «variables» : List VariableTemplate
  outputs : List OutputTemplate
  data : List DataTemplate
  tfvars : List (String × String)
deriving DecidableEq, Repr

/-- The Go zero value of `ProviderTemplateConfig`, returned by
`LoadProviderTemplate` when the config file does not exist. -/
def emptyConfig : ProviderTemplateConfig :=
  ⟨⟨"", "", "", [], []⟩, [], [], [], []⟩

/-- `strings.Join(lines, "\n")`: join a list of lines with newlines. -/
def joinNl : List String → String
  | [] => ""
  | [l] => l
  | l :: l₂ :: ls => l ++ "\n" ++ joinNl (l₂ :: ls)

/-- One hexadecimal digit, lower case, as used by Go `%q` escapes. -/
def hexDigit (n : Nat) : Char :=
  if n < 10 then Char.ofNat (48 + n) else Char.ofNat (87 + n)

/-- Escaping of a single character under Go `fmt.Sprintf("%q", ·)`
(strconv.Quote): backslash escapes for quote, backslash and the named
control characters, `\xHH` for the remaining ASCII control characters,
and printable characters unchanged. -/
def goQuoteChar (c : Char) : List Char :=
  if c = '"' then ['\\', '"']
  else if c = '\\' then ['\\', '\\']
  else if c = '\x07' then ['\\', 'a']
  else if c = '\x08' then ['\\', 'b']
  else if c = '\x0c' then ['\\', 'f']
  else if c = '\n' then ['\\', 'n']
  else if c = '\r' then ['\\', 'r']
  else if c = '\t' then ['\\', 't']
  else if c = '\x0b' then ['\\', 'v']
  else if c.toNat < 32 ∨ c.toNat = 127 then
    ['\\', 'x', hexDigit (c.toNat / 16), hexDigit (c.toNat % 16)]
  else [c]

/-- Go `fmt.Sprintf("%q", s)` on a string value. -/
def goQuote (s : String) : String :=
  String.mk ('"' :: s.data.flatMap goQuoteChar ++ ['"'])

/-- The `GenerateProviderBlock` line list, mirroring the Go append chain in
templates.go lines 81-121 (header, conditional region/profile/credentials
lines, azurerm-specific lines, google-specific lines, closing brace). -/
def providerBlockLines (c : ProviderTemplateConfig) (providerName : String) : List String :=
  let lines : List String := ["provider \"" ++ providerName ++ "\" \x7b"]
  let lines := if c.provider.region ≠ "" then
      lines ++ ["  region = \"" ++ c.provider.region ++ "\""] else lines
  let lines := if c.provider.profile ≠ "" then
      lines ++ ["  profile = \"" ++ c.provider.profile ++ "\""] else lines
  let lines := if c.provider.credentials ≠ "" then
      lines ++ ["  shared_credentials_files = [\"" ++ c.provider.credentials ++ "\"]"] else lines
  let lines := if providerName = "azurerm" then
      let lines := if c.provider.region ≠ "" then lines ++ ["  features \x7b\x7d"] else lines
      let lines := match c.provider.extra.lookup "subscription_id" with
        | some subscriptionID => lines ++ ["  subscription_id = \"" ++ subscriptionID ++ "\""]
        | none => lines
      let lines := match c.provider.extra.lookup "tenant_id" with
        | some tenantID => lines ++ ["  tenant_id = \"" ++ tenantID ++ "\""]
        | none => lines
      lines
    else lines
  let lines := if providerName = "google" then
      let lines := match c.provider.extra.lookup "project" with
        | some project => lines ++ ["  project = \"" ++ project ++ "\""]
        | none => lines
      let lines := match c.provider.extra.lookup "region" with
        | some region => lines ++ ["  region = \"" ++ region ++ "\""]
        | none => lines
      let lines := match c.provider.extra.lookup "zone" with
        | some zone => lines ++ ["  zone = \"" ++ zone ++ "\""]
        | none => lines
      lines
    else lines
  lines ++ ["\x7d"]

/-- `GenerateProviderBlock` from templates.go. -/
def ProviderTemplateConfig.GenerateProviderBlock
    (c : ProviderTemplateConfig) (providerName : String) : String :=
  joinNl (providerBlockLines c providerName)

/-- The region section of the provider block: one line when the region is
non-empty, nothing otherwise. -/
def regionLines (c : ProviderTemplateConfig) : List String :=
  if c.provider.region ≠ "" then ["  region = \"" ++ c.provider.region ++ "\""] else []

/-- The profile section of the provider block. -/
def profileLines (c : ProviderTemplateConfig) : List String :=
  if c.provider.profile ≠ "" then ["  profile = \"" ++ c.provider.profile ++ "\""] else []

/-- The credentials section of the provider block. -/
def credentialsLines (c : ProviderTemplateConfig) : List String :=
  if c.provider.credentials ≠ "" then
    ["  shared_credentials_files = [\"" ++ c.provider.credentials ++ "\"]"] else []

/-- The azurerm-specific extra lines of the provider block. -/
def azurermLines (c : ProviderTemplateConfig) : List String :=
  (if c.provider.region ≠ "" then ["  features \x7b\x7d"] else [])
  ++ (match c.provider.extra.lookup "subscription_id" with
      | some subscriptionID => ["  subscription_id = \"" ++ subscriptionID ++ "\""]
      | none => [])
  ++ (match c.provider.extra.lookup "tenant_id" with
      | some tenantID => ["  tenant_id = \"" ++ tenantID ++ "\""]
      | none => [])

/-- The google-specific extra lines of the provider block. -/
def googleLines (c : ProviderTemplateConfig) : List String :=
  (match c.provider.extra.lookup "project" with
   | some project => ["  project = \"" ++ project ++ "\""]
   | none => [])
  ++ (match c.provider.extra.lookup "region" with
      | some region => ["  region = \"" ++ region ++ "\""]
      | none => [])
  ++ (match c.provider.extra.lookup "zone" with
      | some zone => ["  zone = \"" ++ zone ++ "\""]
      | none => [])

/-- The lines of one variable stanza, including the preceding blank line,
mirroring the loop body of `GenerateVariablesBlock`. -/
def variableStanza (v : VariableTemplate) : List String :=
  ["", "variable \"" ++ v.name ++ "\" \x7b"]
  ++ (if v.description ≠ "" then ["  description = " ++ goQuote v.description] else [])
  ++ (if v.type ≠ "" then ["  type        = " ++ v.type] else [])
  ++ (if v.default ≠ "" then ["  default     = " ++ v.default] else [])
  ++ ["\x7d"]

/-- The line list of a non-empty variables block. -/
def variablesLines (c : ProviderTemplateConfig) : List String :=
  "# Variable declarations" :: c.«variables».flatMap variableStanza

/-- The fixed placeholder of `GenerateVariablesBlock` for an empty list. -/
def variablesPlaceholder : String :=
  "# Variable declarations\n# Example:\n# variable \"example\" \x7b\n#   description = \"Example variable\"\n#   type        = string\n# \x7d\n"

/-- `GenerateVariablesBlock` from templates.go. -/
def ProviderTemplateConfig.GenerateVariablesBlock (c : ProviderTemplateConfig) : String :=
  if c.«variables».length = 0 then variablesPlaceholder
  else joinNl (variablesLines c)

/-- The lines of one output stanza, mirroring the loop body of
`GenerateOutputsBlock`. -/
def outputStanza (o : OutputTemplate) : List String :=
  ["", "output \"" ++ o.name ++ "\" \x7b"]
  ++ (if o.description ≠ "" then ["  description = " ++ goQuote o.description] else [])
  ++ (if o.value ≠ "" then ["  value       = " ++ o.value] else [])
  ++ ["\x7d"]

/-- The fixed placeholder of `GenerateOutputsBlock` for an empty list. -/
def outputsPlaceholder : String :=
  "# Output declarations\n# Example:\n# output \"example\" \x7b\n#   description = \"Example output\"\n#   value       = var.example\n# \x7d\n"

/-- `GenerateOutputsBlock` from templates.go. -/
def ProviderTemplateConfig.GenerateOutputsBlock (c : ProviderTemplateConfig) : String :=
  if c.outputs.length = 0 then outputsPlaceholder
  else joinNl ("# Output declarations" :: c.outputs.flatMap outputStanza)

/-- The provider-specific placeholder of `GenerateDataBlock` for an empty
data list. -/
def dataPlaceholder (provider : String) : String :=
  if provider = "aws" then
    "# Data source declarations\n# Example:\n# data \"aws_vpc\" \"example\" \x7b\n#   filter \x7b\n#     name   = \"tag:Name\"\n#     values = [\"example-vpc\"]\n#   \x7d\n# \x7d\n"
  else if provider = "azure" then
    "# Data source declarations\n# Example:\n# data \"azurerm_resource_group\" \"example\" \x7b\n#   name = \"example-rg\"\n# \x7d\n"
  else if provider = "gcp" then
    "# Data source declarations\n# Example:\n# data \"google_project\" \"example\" \x7b\n#   project_id = \"example-project\"\n# \x7d\n"
  else "# Data source declarations\n"

/-- The lines of one data-source stanza, mirroring the loop body of
`GenerateDataBlock`: optional comment line, blank line, header, one line
per `config` entry in iteration order, closing brace. -/
def dataStanza (d : DataTemplate) : List String :=
  (if d.comment ≠ "" then ["# " ++ d.comment] else [])
  ++ ["", "data \"" ++ d.type ++ "\" \"" ++ d.name ++ "\" \x7b"]
  ++ d.config.map (fun kv => "  " ++ kv.1 ++ " = " ++ kv.2)
  ++ ["\x7d"]

/-- `GenerateDataBlock` from templates.go. -/
def ProviderTemplateConfig.GenerateDataBlock
    (c : ProviderTemplateConfig) (provider : String) : String :=
  if c.data.length = 0 then dataPlaceholder provider
  else joinNl ("# Data source declarations" :: c.data.flatMap dataStanza)

/-- `GenerateTfvarsBlock` from templates.go. -/
def ProviderTemplateConfig.GenerateTfvarsBlock (c : ProviderTemplateConfig) : String :=
  if c.tfvars.length = 0 then
    "# Variable assignments\n# Example:\n# example = \"value\"\n"
  else joinNl ("# Variable assignments"
    :: c.tfvars.map (fun kv => kv.1 ++ " = " ++ goQuote kv.2))

/-! ### Loading (`LoadProviderTemplate`, templates.go lines 51-78)

The filesystem is abstracted as an environment record; the YAML
unmarshaller is a parameter (its outcome is all the code inspects). -/

/-- The filesystem operations `LoadProviderTemplate` performs:
`os.UserHomeDir`, `os.Stat` existence check, `os.ReadFile`. -/
structure FileSystem where
  userHomeDir : Except String String
  fileExists : String → Bool
  readFile : String → Except String String

/-- The default config location `~/.cc/terraform-templates/<provider>.yaml`. -/
def defaultTemplatePath (homeDir provider : String) : String :=
  homeDir ++ "/.cc/terraform-templates/" ++ provider ++ ".yaml"

/-- Path resolution at the top of `LoadProviderTemplate`: an empty config
path falls back to the per-user default location. -/
def resolveConfigPath (fs : FileSystem) (configPath provider : String) : Except String String :=
  if configPath = "" then
    match fs.userHomeDir with
    | .error e => .error ("failed to get home directory: " ++ e)
    | .ok homeDir => .ok (defaultTemplatePath homeDir provider)
  else .ok configPath

/-- `LoadProviderTemplate` from templates.go: resolve the path; a missing
file yields the zero-value config; a read failure and a YAML parse
failure each yield a wrapped error. -/
def LoadProviderTemplate (fs : FileSystem)
    (parseYaml : String → Except String ProviderTemplateConfig)
    (configPath provider : String) : Except String ProviderTemplateConfig :=
  match resolveConfigPath fs configPath provider with
  | .error e => .error e
  | .ok path =>
    if fs.fileExists path = false then .ok emptyConfig
    else
      match fs.readFile path with
      | .error e => .error ("failed to read config file: " ++ e)
      | .ok contents =>
        match parseYaml contents with
        | .error e => .error ("failed to parse config file: " ++ e)
        | .ok config => .ok config

/-! ### Scaffolding (`scaffoldTerraformDir`, terraform.go lines 512-606)

The pure core of `scaffoldTerraformDir`: provider validation, the
`version.tf` text, and the name/content pairs of the files written.
Path validation, directory creation and the `os.WriteFile` loop are the
I/O shell around this core. -/

/-- The `version.tf` content assembled at terraform.go lines 536-561. -/
def versionContent (provider tfVersion providerVersion : String) : String :=
  "terraform \x7b\n  required_version = \"" ++ tfVersion ++ "\"\n  required_providers \x7b\n"
  ++ (if provider = "aws" then
        "    aws = \x7b\n      source  = \"hashicorp/aws\"\n      version = \"" ++ providerVersion ++ "\"\n    \x7d\n"
      else if provider = "azure" then
        "    azurerm = \x7b\n      source  = \"hashicorp/azurerm\"\n      version = \"" ++ providerVersion ++ "\"\n    \x7d\n"
      else if provider = "gcp" then
        "    google = \x7b\n      source  = \"hashicorp/google\"\n      version = \"" ++ providerVersion ++ "\"\n    \x7d\n"
      else "")
  ++ "  \x7d\n\x7d\n"

/-- The provider identifier passed to `GenerateProviderBlock`
(terraform.go lines 564-571). -/
def scaffoldProviderName (provider : String) : String :=
  if provider = "aws" then "aws"
  else if provider = "azure" then "azurerm"
  else if provider = "gcp" then "google"
  else ""

/-- The name/content pairs `scaffoldTerraformDir` writes after a
successful load of the template config (terraform.go lines 586-594),
or the validation error for an unknown provider (lines 513-516). -/
def scaffoldTerraformFiles (provider tfVersion providerVersion : String)
    (templateConfig : ProviderTemplateConfig) : Except String (List (String × String)) :=
  if provider ≠ "aws" ∧ provider ≠ "azure" ∧ provider ≠ "gcp" then
    .error ("provider must be \x27aws\x27, \x27azure\x27, or \x27gcp\x27, got: " ++ provider)
  else
    .ok [("version.tf", versionContent provider tfVersion providerVersion),
         ("main.tf", templateConfig.GenerateProviderBlock (scaffoldProviderName provider)),
         ("input.tf", templateConfig.GenerateVariablesBlock),
         ("output.tf", templateConfig.GenerateOutputsBlock),
         ("data.tf", templateConfig.GenerateDataBlock provider),
         ("terraform.tfvars", templateConfig.GenerateTfvarsBlock)]

/-- The filename list of a scaffold outcome (an error writes nothing). -/
def writtenFileNames (r : Except String (List (String × String))) : List String :=
  match r with
  | .ok fs => fs.map Prod.fst
  | .error _ => []

/-! ### AI dispatcher (`callAI`, `callClaude`, `callOllama`)

HTTP effects are abstracted as environment records holding the outcome
each network call would produce; the dispatcher logic is embedded
faithfully on top of them. -/

/-- One content block of a Claude API message (only `Text` is read). -/
structure ContentBlock where
  text : String
deriving DecidableEq, Repr

/-- The Claude API response message (only `Content` is read). -/
structure ClaudeMessage where
  content : List ContentBlock
deriving DecidableEq, Repr

/-- `callClaude` from claude.go, over the outcome of the
`client.Messages.New` call: wrap an API error, return the first content
block text on success, and a distinct error when the content list is
empty. -/
def callClaude (apiResult : Except String ClaudeMessage) : Except String String :=
  match apiResult with
  | .error e => .error ("claude api error: " ++ e)
  | .ok message =>
    match message.content with
    | [] => .error "no response from claude"
    | contentBlock :: _ => .ok contentBlock.text

/-- `defaultOllamaURL` from ollama.go. -/
def defaultOllamaURL : String := "http://localhost:11434"

/-- `defaultModel` from ollama.go. -/
def defaultModel : String := "llama3.2:latest"

/-- The reachability probe client timeout (`2 * time.Second`,
ollama.go line 92), in seconds. -/
def ollamaProbeTimeoutSeconds : Nat := 2

/-- The generation request client timeout (`5 * time.Minute`,
ollama.go line 60), in seconds. -/
def ollamaGenerateTimeoutSeconds : Nat := 300

/-- `OllamaRequest` from ollama.go (the JSON body of `/api/generate`). -/
structure OllamaRequest where
  model : String
  prompt : String
  stream : Bool
deriving DecidableEq, Repr

/-- `OllamaResponse` from ollama.go (the decoded JSON body; only
`Response` is inspected). -/
structure OllamaResponse where
  model : String
  response : String
  done : Bool
deriving DecidableEq, Repr

/-- An HTTP response: status code and body. -/
structure HttpResponse where
  statusCode : Nat
  body : String
deriving DecidableEq, Repr

/-- The outcome of the probe request `GET /api/tags` issued with the
short probe timeout. -/
structure ProbeEnv where
  tagsResponse : Except String HttpResponse

/-- `isOllamaRunning` from ollama.go: the probe succeeds exactly when the
`GET /api/tags` request returns status 200. -/
def isOllamaRunning (p : ProbeEnv) : Bool :=
  match p.tagsResponse with
  | .error _ => false
  | .ok resp => resp.statusCode = 200

/-- The network environment of `callOllama`: the probe outcome, the
outcome `client.Do` would produce for a given generation request (long
timeout), and the JSON decoding of a response body. -/
structure OllamaEnv where
  probe : ProbeEnv
  send : OllamaRequest → Except String HttpResponse
  decode : String → Except String OllamaResponse

/-- The single generation request body built by `callOllama`:
non-streaming, default model. -/
def buildOllamaRequest (prompt : String) : OllamaRequest :=
  ⟨defaultModel, prompt, false⟩

/-- `callOllama` from ollama.go: probe first and fail with the distinct
"not running" error when unreachable; otherwise issue the generation
request, reject non-200 statuses, decode the body, and treat an empty
generated-text field as an error. -/
def callOllama (env : OllamaEnv) (prompt : String) : Except String String :=
  if isOllamaRunning env.probe = false then
    .error "ollama is not running. Please start it with: ollama serve"
  else
    match env.send (buildOllamaRequest prompt) with
    | .error e => .error ("failed to send request to ollama: " ++ e)
    | .ok resp =>
      if resp.statusCode ≠ 200 then
        .error ("ollama returned status " ++ toString resp.statusCode ++ ": " ++ resp.body)
      else
        match env.decode resp.body with
        | .error e => .error ("failed to decode response: " ++ e)
        | .ok ollamaResp =>
          if ollamaResp.response = "" then .error "empty response from ollama"
          else .ok ollamaResp.response

/-! ### Reparsing of rendered variable stanzas

Modelled from the spec: section 8 demands a round-trip test
"render → reparse stanza fields → fields match input" for the variables
block, but the repository contains no reparser; the definitions below
model that reparse step, inverting the render rules of
`GenerateVariablesBlock`. -/

/-- Split a character list at newline characters. -/
def splitOnNl : List Char → List (List Char)
  | [] => [[]]
  | c :: rest =>
    if c = '\n' then [] :: splitOnNl rest
    else
      match splitOnNl rest with
      | [] => [[c]]
      | l :: ls => (c :: l) :: ls

/-- Split a string into its lines (at newline characters). -/
def splitLines (s : String) : List String :=
  (splitOnNl s.data).map String.mk

/-- Strip a known leading part from a character list, or fail. -/
def stripLead : List Char → List Char → Option (List Char)
  | [], s => some s
  | _ :: _, [] => none
  | a :: as, b :: bs => if a = b then stripLead as bs else none

/-- Strip a known leading part from a string, or fail. -/
def stripPre (p s : String) : Option String :=
  (stripLead p.data s.data).map String.mk

/-- Strip a known trailing part from a string, or fail. -/
def stripSuf (suf s : String) : Option String :=
  (stripLead suf.data.reverse s.data.reverse).map (fun cs => String.mk cs.reverse)

/-- Remove one surrounding pair of double quotes, or fail. -/
def unquote (s : String) : Option String :=
  match s.data with
  | '"' :: rest =>
    if rest.getLast? = some '"' then some (String.mk rest.dropLast) else none
  | _ => none

/-- Collect the lines of one stanza group: everything up to the next
blank line (stanzas are separated by blank lines in the rendered block). -/
def takeGroup : List String → List String × List String
  | [] => ([], [])
  | l :: rest =>
    if l = "" then ([], l :: rest)
    else
      let (g, r) := takeGroup rest
      (l :: g, r)

theorem takeGroup_rest_length (ls : List String) : (takeGroup ls).2.length ≤ ls.length := by
  induction ls with
  | nil => simp [takeGroup]
  | cons l rest ih =>
    by_cases h : l = ""
    · simp [takeGroup, h]
    · simp [takeGroup, h]
      omega

/-- Split the stanza region of the rendered block into groups, one per
stanza: each group is announced by a blank line. -/
def stanzaGroups : List String → Option (List (List String))
  | [] => some []
  | l :: rest =>
    if l = "" then
      match stanzaGroups (takeGroup rest).2 with
      | none => none
      | some gs => some ((takeGroup rest).1 :: gs)
    else none
termination_by ls => ls.length
decreasing_by
  calc (takeGroup rest).2.length ≤ rest.length := takeGroup_rest_length rest
    _ < (l :: rest).length := by simp

/-- Read one optional field line with a known label; the line list is
unchanged when the label does not match. -/
def parseOptLine (label : String) : List String → Option String × List String
  | [] => (none, [])
  | l :: ls =>
    match stripPre label l with
    | some v => (some v, ls)
    | none => (none, l :: ls)

/-- Parse one stanza group back into a `VariableTemplate`: header with the
name, then optional description (quoted), type and default lines, then
the closing brace. A missing field parses as the empty string. -/
def parseGroup (g : List String) : Option VariableTemplate :=
  match g with
  | [] => none
  | headerLine :: rest =>
    match stripPre "variable \"" headerLine >>= stripSuf "\" \x7b" with
    | none => none
    | some name =>
      let (descQuoted, rest₁) := parseOptLine "  description = " rest
      let (ty, rest₂) := parseOptLine "  type        = " rest₁
      let (df, rest₃) := parseOptLine "  default     = " rest₂
      match rest₃ with
      | ["\x7d"] =>
        match descQuoted with
        | none => some ⟨name, "", ty.getD "", df.getD ""⟩
        | some q =>
          match unquote q with
          | some d => some ⟨name, d, ty.getD "", df.getD ""⟩
          | none => none
      | _ => none

/-- Parse the stanza groups one after the other. -/
def parseGroups : List (List String) → Option (List VariableTemplate)
  | [] => some []
  | g :: gs =>
    match parseGroup g, parseGroups gs with
    | some v, some vs => some (v :: vs)
    | _, _ => none

/-- Reparse a rendered variables block line list: fixed comment header,
then one group per stanza. -/
def parseVariablesLines (lines : List String) : Option (List VariableTemplate) :=
  match lines with
  | [] => none
  | headerLine :: rest =>
    if headerLine = "# Variable declarations" then
      stanzaGroups rest >>= parseGroups
    else none

/-- Reparse a rendered variables block. -/
def parseVariablesBlock (s : String) : Option (List VariableTemplate) :=
  parseVariablesLines (splitLines s)

/-- Well-formedness of a free-form rendered field: no embedded newline. -/
def wfField (s : String) : Prop := '\n' ∉ s.data

/-- Well-formedness of a rendered name: no newline and no double quote. -/
def wfName (s : String) : Prop := '\n' ∉ s.data ∧ '"' ∉ s.data

/-- Well-formedness of a description: printable characters other than the
double quote and the backslash, so that Go `%q` quoting adds only the
surrounding quotes. -/
def wfDesc (s : String) : Prop :=
  ∀ ch ∈ s.data, 32 ≤ ch.toNat ∧ ch.toNat ≠ 127 ∧ ch ≠ '"' ∧ ch ≠ '\\'

/-- Well-formedness of one variable entry for the round-trip statement. -/
def wfVariable (v : VariableTemplate) : Prop :=
  wfName v.name ∧ wfDesc v.description ∧ wfField v.type ∧ wfField v.default

instance : DecidablePred wfField := fun s => by unfold wfField; infer_instance

instance : DecidablePred wfName := fun s => by unfold wfName; infer_instance

instance : DecidablePred wfDesc := fun s => by unfold wfDesc; infer_instance

instance : DecidablePred wfVariable := fun v => by unfold wfVariable; infer_instance

/-- The environment of `callAI`: the `ANTHROPIC_API_KEY` value (empty
when unset), the outcome of the Claude API call, and the Ollama
environment. -/
structure AIEnv where
  anthropicApiKey : String
  claudeApi : Except String ClaudeMessage
  ollama : OllamaEnv

/-- `callAI` from tf_explain.go lines 136-153: try Claude first unless
forced local or the key is absent; on Claude success return its text; on
any Claude error discard it and fall back to `callOllama`. -/
def callAI (env : AIEnv) (prompt : String) (forceLocal : Bool) : Except String String :=
  if forceLocal = false ∧ env.anthropicApiKey ≠ "" then
    match callClaude env.claudeApi with
    | .ok response => .ok response
    | .error _ => callOllama env.ollama prompt
  else
    callOllama env.ollama prompt

/-! ### Concrete example values used in counterexamples and witnesses -/

/-- An azurerm-style config: region set, subscription and tenant in `extra`. -/
def cAz : ProviderTemplateConfig :=
  { emptyConfig with provider := ⟨"eastus", "", "", [], [("subscription_id", "X"), ("tenant_id", "Y")]⟩ }

/-- Two ordinary variables named `a` and `b`. -/
def cV1 : ProviderTemplateConfig :=
  { emptyConfig with «variables» := [⟨"a", "", "", ""⟩, ⟨"b", "", "", ""⟩] }

/-- A single variable whose name embeds quote, brace and newline characters
so that its rendering coincides with that of `cV1`. -/
def cV2 : ProviderTemplateConfig :=
  { emptyConfig with «variables» := [⟨"a\" \x7b\n\x7d\n\nvariable \"b", "", "", ""⟩] }

/-- A well-formed two-variable config for the round-trip witness. -/
def cV3 : ProviderTemplateConfig :=
  { emptyConfig with «variables» :=
      [⟨"instance_type", "EC2 instance type", "string", "\"t3.micro\""⟩,
       ⟨"node_count", "", "number", ""⟩] }

/-- A data source whose config map is iterated in the order a, b. -/
def cD1 : ProviderTemplateConfig :=
  { emptyConfig with data := [⟨"aws_vpc", "main", [("a", "1"), ("b", "2")], ""⟩] }

/-- The same data source map iterated in the order b, a. -/
def cD2 : ProviderTemplateConfig :=
  { emptyConfig with data := [⟨"aws_vpc", "main", [("b", "2"), ("a", "1")], ""⟩] }

/-- A filesystem on which the config file exists but reading it fails. -/
def readFailFs : FileSystem :=
  ⟨.ok "/home/user", fun _ => true, fun _ => .error "permission denied"⟩

/-- An Ollama environment that is reachable and generates `"hello"`. -/
def okOllamaEnv : OllamaEnv :=
  ⟨⟨.ok ⟨200, ""⟩⟩, fun _ => .ok ⟨200, "body"⟩,
   fun _ => .ok ⟨"llama3.2:latest", "hello", true⟩⟩

/-- An Ollama environment whose reachability probe fails. -/
def downOllamaEnv : OllamaEnv :=
  ⟨⟨.error "connection refused"⟩, fun _ => .ok ⟨200, "body"⟩,
   fun _ => .ok ⟨"llama3.2:latest", "hello", true⟩⟩

/-- Two data templates agreeing except for config iteration order. -/
def dataEntryEquiv (d d' : DataTemplate) : Prop :=
  d.type = d'.type ∧ d.name = d'.name ∧ d.comment = d'.comment ∧ d.config.Perm d'.config

/-- The lines of a variable stanza without its leading blank separator. -/
def groupOfVar (v : VariableTemplate) : List String :=
  ("variable \"" ++ v.name ++ "\" \x7b")
  :: ((if v.description ≠ "" then ["  description = " ++ goQuote v.description] else [])
  ++ (if v.type ≠ "" then ["  type        = " ++ v.type] else [])
  ++ (if v.default ≠ "" then ["  default     = " ++ v.default] else [])
  ++ ["\x7d"])

/-! ## Claim theorems -/

/-- Claim C7: for every provider config whose variables list is empty,
`GenerateVariablesBlock` returns exactly the fixed commented placeholder
text; the generator is a pure function, so the text is byte-identical
across runs. -/
theorem variables_block_empty_placeholder (c : ProviderTemplateConfig)
    (h : c.«variables» = []) :
    c.GenerateVariablesBlock
      = "# Variable declarations\n# Example:\n# variable \"example\" \x7b\n#   description = \"Example variable\"\n#   type        = string\n# \x7d\n" := by
  simp [ProviderTemplateConfig.GenerateVariablesBlock, h, variablesPlaceholder]

/-- Witness for C7 at the zero-value config. -/
theorem variables_block_empty_placeholder_witness :
    emptyConfig.GenerateVariablesBlock
      = "# Variable declarations\n# Example:\n# variable \"example\" \x7b\n#   description = \"Example variable\"\n#   type        = string\n# \x7d\n" :=
  variables_block_empty_placeholder emptyConfig rfl

/-- Counterexample to claim C8: a successful scaffold invocation writes
six files, not five — `version.tf` plus the five rendered blocks. -/
theorem scaffold_file_count_is_six :
    writtenFileNames (scaffoldTerraformFiles "aws" ">= 1.5.0" "5.0.0" emptyConfig)
      = ["version.tf", "main.tf", "input.tf", "output.tf", "data.tf", "terraform.tfvars"]
    ∧ (writtenFileNames (scaffoldTerraformFiles "aws" ">= 1.5.0" "5.0.0" emptyConfig)).length ≠ 5 :=
  ⟨rfl, by decide⟩

/-- Claim C8 (amended): every successful scaffold invocation writes
exactly six text files — `version.tf` plus the five rendered blocks
`main.tf`, `input.tf`, `output.tf`, `data.tf` and `terraform.tfvars` —
with contents produced by the render rules. -/
theorem scaffold_writes_six_files (provider tfVersion providerVersion : String)
    (cfg : ProviderTemplateConfig)
    (h : provider = "aws" ∨ provider = "azure" ∨ provider = "gcp") :
    scaffoldTerraformFiles provider tfVersion providerVersion cfg =
      .ok [("version.tf", versionContent provider tfVersion providerVersion),
           ("main.tf", cfg.GenerateProviderBlock (scaffoldProviderName provider)),
           ("input.tf", cfg.GenerateVariablesBlock),
           ("output.tf", cfg.GenerateOutputsBlock),
           ("data.tf", cfg.GenerateDataBlock provider),
           ("terraform.tfvars", cfg.GenerateTfvarsBlock)]
    ∧ writtenFileNames (scaffoldTerraformFiles provider tfVersion providerVersion cfg)
        = ["version.tf", "main.tf", "input.tf", "output.tf", "data.tf", "terraform.tfvars"] := by
  rcases h with h | h | h <;> subst h <;> exact ⟨rfl, rfl⟩

/-- Witness for the amended C8 at the azure provider. -/
theorem scaffold_writes_six_files_witness :
    scaffoldTerraformFiles "azure" ">= 1.9.0" "4.0.0" emptyConfig =
      .ok [("version.tf", versionContent "azure" ">= 1.9.0" "4.0.0"),
           ("main.tf", emptyConfig.GenerateProviderBlock (scaffoldProviderName "azure")),
           ("input.tf", emptyConfig.GenerateVariablesBlock),
           ("output.tf", emptyConfig.GenerateOutputsBlock),
           ("data.tf", emptyConfig.GenerateDataBlock "azure"),
           ("terraform.tfvars", emptyConfig.GenerateTfvarsBlock)]
    ∧ writtenFileNames (scaffoldTerraformFiles "azure" ">= 1.9.0" "4.0.0" emptyConfig)
        = ["version.tf", "main.tf", "input.tf", "output.tf", "data.tf", "terraform.tfvars"] :=
  scaffold_writes_six_files "azure" ">= 1.9.0" "4.0.0" emptyConfig (Or.inr (Or.inl rfl))

/-- Counterexample to claim C3: on a filesystem where the config file
exists but reading it fails, `LoadProviderTemplate` returns an error even
though YAML parsing never fails (the parser here always succeeds), so not
every non-parse condition degrades to an empty config. -/
theorem load_read_failure_is_error :
    LoadProviderTemplate readFailFs (fun _ => .ok emptyConfig) "cfg.yaml" "aws"
      = .error "failed to read config file: permission denied"
    ∧ LoadProviderTemplate readFailFs (fun _ => .ok emptyConfig) "cfg.yaml" "aws"
      ≠ .ok emptyConfig :=
  ⟨rfl, by simp [LoadProviderTemplate, resolveConfigPath, readFailFs]⟩

/-- Claim C3 (amended): `LoadProviderTemplate` returns the zero-value
config and no error when the resolved file does not exist, and the
distinct structured parse error when YAML parsing fails; but a read
failure and a home-directory resolution failure (when no config path is
given) also return errors rather than degrading to an empty config. -/
theorem load_provider_template_outcomes :
    (∀ (fs : FileSystem) (parseYaml : String → Except String ProviderTemplateConfig)
       (path provider : String), path ≠ "" → fs.fileExists path = false →
       LoadProviderTemplate fs parseYaml path provider = .ok emptyConfig)
    ∧ (∀ (fs : FileSystem) (parseYaml : String → Except String ProviderTemplateConfig)
       (provider homeDir : String), fs.userHomeDir = .ok homeDir →
       fs.fileExists (defaultTemplatePath homeDir provider) = false →
       LoadProviderTemplate fs parseYaml "" provider = .ok emptyConfig)
    ∧ (∀ (fs : FileSystem) (parseYaml : String → Except String ProviderTemplateConfig)
       (path provider contents e : String), path ≠ "" → fs.fileExists path = true →
       fs.readFile path = .ok contents → parseYaml contents = .error e →
       LoadProviderTemplate fs parseYaml path provider
         = .error ("failed to parse config file: " ++ e))
    ∧ (∀ (fs : FileSystem) (parseYaml : String → Except String ProviderTemplateConfig)
       (path provider e : String), path ≠ "" → fs.fileExists path = true →
       fs.readFile path = .error e →
       LoadProviderTemplate fs parseYaml path provider
         = .error ("failed to read config file: " ++ e))
    ∧ (∀ (fs : FileSystem) (parseYaml : String → Except String ProviderTemplateConfig)
       (provider e : String), fs.userHomeDir = .error e →
       LoadProviderTemplate fs parseYaml "" provider
         = .error ("failed to get home directory: " ++ e))
    ∧ (∀ (fs : FileSystem) (parseYaml : String → Except String ProviderTemplateConfig)
       (path provider contents : String) (cfg : ProviderTemplateConfig),
       path ≠ "" → fs.fileExists path = true →
       fs.readFile path = .ok contents → parseYaml contents = .ok cfg →
       LoadProviderTemplate fs parseYaml path provider = .ok cfg) := by
  refine ⟨?_, ?_, ?_, ?_, ?_, ?_⟩
  · intro fs parseYaml path provider hpath hmiss
    simp [LoadProviderTemplate, resolveConfigPath, hpath, hmiss]
  · intro fs parseYaml provider homeDir hhome hmiss
    simp [LoadProviderTemplate, resolveConfigPath, hhome, hmiss]
  · intro fs parseYaml path provider contents e hpath hex hread hparse
    simp [LoadProviderTemplate, resolveConfigPath, hpath, hex, hread, hparse]
  · intro fs parseYaml path provider e hpath hex hread
    simp [LoadProviderTemplate, resolveConfigPath, hpath, hex, hread]
  · intro fs parseYaml provider e hhome
    simp [LoadProviderTemplate, resolveConfigPath, hhome]
  · intro fs parseYaml path provider contents cfg hpath hex hread hparse
    simp [LoadProviderTemplate, resolveConfigPath, hpath, hex, hread, hparse]

/-- Witness for the amended C3: a missing file yields the zero config. -/
theorem load_provider_template_outcomes_witness :
    LoadProviderTemplate ⟨.ok "/home/user", fun _ => false, fun _ => .error "unused"⟩
      (fun _ => .ok emptyConfig) "cfg.yaml" "aws" = .ok emptyConfig :=
  load_provider_template_outcomes.1 ⟨.ok "/home/user", fun _ => false, fun _ => .error "unused"⟩
    (fun _ => .ok emptyConfig) "cfg.yaml" "aws" (by decide) rfl

/-- Claim C2: for every prompt, if the Claude call fails with any error
and the Ollama call returns a valid response, `callAI` returns exactly
the local response with no error; the quantification over the error `e`
and the whole environment shows the remote error value never reaches the
result. -/
theorem callAI_silent_fallback (env : AIEnv) (prompt e r : String)
    (forceLocal : Bool)
    (hremote : callClaude env.claudeApi = .error e)
    (hlocal : callOllama env.ollama prompt = .ok r) :
    callAI env prompt forceLocal = .ok r := by
  unfold callAI
  split
  · rw [hremote]
    exact hlocal
  · exact hlocal

/-- Witness for C2: Claude API down, Ollama answers `"hello"`. -/
theorem callAI_silent_fallback_witness :
    callAI ⟨"sk-key", .error "api down", okOllamaEnv⟩ "p" false = .ok "hello" :=
  callAI_silent_fallback ⟨"sk-key", .error "api down", okOllamaEnv⟩ "p"
    "claude api error: api down" "hello" false rfl rfl

/-- Claim C5: with force-local set and the local service unreachable, the
dispatcher returns the distinct "not running" error; the result does not
depend on the API key, on the Claude outcome, or on what the generation
request would return, so neither the remote call nor the generation
request is consulted. -/
theorem callAI_force_local_not_running
    (key prompt : String) (claudeApi : Except String ClaudeMessage)
    (p : ProbeEnv) (send : OllamaRequest → Except String HttpResponse)
    (decode : String → Except String OllamaResponse)
    (hp : isOllamaRunning p = false) :
    callAI ⟨key, claudeApi, ⟨p, send, decode⟩⟩ prompt true
      = .error "ollama is not running. Please start it with: ollama serve" := by
  simp [callAI, callOllama, hp]

/-- Witness for C5 with a failing probe. -/
theorem callAI_force_local_not_running_witness :
    callAI ⟨"sk-key", .ok ⟨[⟨"text"⟩]⟩, downOllamaEnv⟩ "p" true
      = .error "ollama is not running. Please start it with: ollama serve" :=
  callAI_force_local_not_running "sk-key" "p" (.ok ⟨[⟨"text"⟩]⟩)
    downOllamaEnv.probe downOllamaEnv.send downOllamaEnv.decode rfl

/-- Claim C6: the local call probes reachability first (short 2-second
timeout against the 300-second generation timeout) and fails with the
distinct "not running" error without consulting the generation request
when the probe fails; otherwise it issues the single non-streaming
generation request and rejects an empty generated-text field. -/
theorem callOllama_probe_then_generate :
    (∀ (p : ProbeEnv) (send : OllamaRequest → Except String HttpResponse)
       (decode : String → Except String OllamaResponse) (prompt : String),
       isOllamaRunning p = false →
       callOllama ⟨p, send, decode⟩ prompt
         = .error "ollama is not running. Please start it with: ollama serve")
    ∧ (∀ prompt, (buildOllamaRequest prompt).stream = false
         ∧ (buildOllamaRequest prompt).prompt = prompt
         ∧ (buildOllamaRequest prompt).model = defaultModel)
    ∧ ollamaProbeTimeoutSeconds = 2 ∧ ollamaGenerateTimeoutSeconds = 300
    ∧ ollamaProbeTimeoutSeconds < ollamaGenerateTimeoutSeconds
    ∧ (∀ (env : OllamaEnv) (prompt : String) (resp : HttpResponse) (o : OllamaResponse),
       isOllamaRunning env.probe = true →
       env.send (buildOllamaRequest prompt) = .ok resp → resp.statusCode = 200 →
       env.decode resp.body = .ok o → o.response = "" →
       callOllama env prompt = .error "empty response from ollama") := by
  refine ⟨?_, fun _ => ⟨rfl, rfl, rfl⟩, rfl, rfl, by decide, ?_⟩
  · intro p send decode prompt hp
    simp [callOllama, hp]
  · intro env prompt resp o hrun hsend hstatus hdecode hempty
    simp [callOllama, hrun, hsend, hstatus, hdecode, hempty]

/-- Witness for C6: the probe fails, so the call reports "not running". -/
theorem callOllama_probe_then_generate_witness :
    callOllama ⟨downOllamaEnv.probe, downOllamaEnv.send, downOllamaEnv.decode⟩ "p"
      = .error "ollama is not running. Please start it with: ollama serve" :=
  callOllama_probe_then_generate.1 downOllamaEnv.probe downOllamaEnv.send
    downOllamaEnv.decode "p" rfl

/-- Claim C9: when the Claude call succeeds with a non-empty content list
whose first block has empty text, `callClaude` returns the empty string
with no error and `callAI` passes it through as the final result for
every local environment (no fallback), while the local path treats an
empty generated-text field as an error. -/
theorem callAI_empty_claude_text
    (key prompt : String) (m : ClaudeMessage) (b : ContentBlock)
    (rest : List ContentBlock) (oe : OllamaEnv)
    (hkey : key ≠ "") (hc : m.content = b :: rest) (hb : b.text = "") :
    callClaude (.ok m) = .ok ""
    ∧ callAI ⟨key, .ok m, oe⟩ prompt false = .ok ""
    ∧ (∀ (env : OllamaEnv) (prompt₂ : String) (resp : HttpResponse) (o : OllamaResponse),
       isOllamaRunning env.probe = true →
       env.send (buildOllamaRequest prompt₂) = .ok resp → resp.statusCode = 200 →
       env.decode resp.body = .ok o → o.response = "" →
       callOllama env prompt₂ = .error "empty response from ollama") := by
  have hclaude : callClaude (.ok m) = .ok "" := by
    simp [callClaude, hc, hb]
  refine ⟨hclaude, ?_, ?_⟩
  · simp [callAI, hkey, hclaude]
  · intro env prompt₂ resp o hrun hsend hstatus hdecode hempty
    simp [callOllama, hrun, hsend, hstatus, hdecode, hempty]

/-- Witness for C9 with a one-block message of empty text. -/
theorem callAI_empty_claude_text_witness :
    callClaude (.ok ⟨[⟨""⟩]⟩) = .ok ""
    ∧ callAI ⟨"sk-key", .ok ⟨[⟨""⟩]⟩, downOllamaEnv⟩ "p" false = .ok ""
    ∧ (∀ (env : OllamaEnv) (prompt₂ : String) (resp : HttpResponse) (o : OllamaResponse),
       isOllamaRunning env.probe = true →
       env.send (buildOllamaRequest prompt₂) = .ok resp → resp.statusCode = 200 →
       env.decode resp.body = .ok o → o.response = "" →
       callOllama env prompt₂ = .error "empty response from ollama") :=
  callAI_empty_claude_text "sk-key" "p" ⟨[⟨""⟩]⟩ ⟨""⟩ [] downOllamaEnv
    (by decide) rfl rfl

set_option maxHeartbeats 4000000 in
/-- Claim C1: the provider block consists, in this fixed order, of the
header, the region line (exactly when the region is non-empty), the
profile line (exactly when the profile is non-empty), the credentials
line (exactly when the credentials path is non-empty), then the
provider-specific extras: for "azurerm" with a region set and
subscription/tenant in the extra mapping these are `features \x7b\x7d`,
`subscription_id = "X"`, `tenant_id = "Y"` in that order, and for
"google" the project, region and zone lines from the extra mapping. -/
theorem provider_block_field_rules :
    (∀ (c : ProviderTemplateConfig) (n : String),
       c.GenerateProviderBlock n = joinNl (providerBlockLines c n))
    ∧ (∀ (c : ProviderTemplateConfig) (n : String),
       providerBlockLines c n
         = ("provider \"" ++ n ++ "\" \x7b")
           :: (regionLines c ++ profileLines c ++ credentialsLines c
               ++ (if n = "azurerm" then azurermLines c else [])
               ++ (if n = "google" then googleLines c else []) ++ ["\x7d"]))
    ∧ (∀ c : ProviderTemplateConfig, regionLines c = [] ↔ c.provider.region = "")
    ∧ (∀ c : ProviderTemplateConfig, profileLines c = [] ↔ c.provider.profile = "")
    ∧ (∀ c : ProviderTemplateConfig, credentialsLines c = [] ↔ c.provider.credentials = "")
    ∧ (∀ (c : ProviderTemplateConfig) (sX tY : String), c.provider.region ≠ "" →
         c.provider.extra.lookup "subscription_id" = some sX →
         c.provider.extra.lookup "tenant_id" = some tY →
         azurermLines c = ["  features \x7b\x7d", "  subscription_id = \"" ++ sX ++ "\"",
                           "  tenant_id = \"" ++ tY ++ "\""])
    ∧ (∀ (c : ProviderTemplateConfig) (pj rg zn : String),
         c.provider.extra.lookup "project" = some pj →
         c.provider.extra.lookup "region" = some rg →
         c.provider.extra.lookup "zone" = some zn →
         googleLines c = ["  project = \"" ++ pj ++ "\"", "  region = \"" ++ rg ++ "\"",
                          "  zone = \"" ++ zn ++ "\""]) := by
  refine ⟨fun _ _ => rfl, ?_, ?_, ?_, ?_, ?_, ?_⟩
  · intro c n
    by_cases hr : c.provider.region = "" <;>
      by_cases hp : c.provider.profile = "" <;>
      by_cases hc : c.provider.credentials = "" <;>
      rcases hsub : c.provider.extra.lookup "subscription_id" with _ | sX <;>
      rcases hten : c.provider.extra.lookup "tenant_id" with _ | tY <;>
      rcases hpj : c.provider.extra.lookup "project" with _ | pj <;>
      rcases hrg : c.provider.extra.lookup "region" with _ | rg <;>
      rcases hzn : c.provider.extra.lookup "zone" with _ | zn <;>
      simp [providerBlockLines, regionLines, profileLines, credentialsLines,
            azurermLines, googleLines, hr, hp, hc, hsub, hten, hpj, hrg, hzn] <;>
      by_cases hn : n = "azurerm" <;> by_cases hg : n = "google" <;> simp_all
  · intro c
    unfold regionLines
    split <;> simp_all
  · intro c
    unfold profileLines
    split <;> simp_all
  · intro c
    unfold credentialsLines
    split <;> simp_all
  · intro c sX tY hr hs ht
    simp [azurermLines, hr, hs, ht]
  · intro c pj rg zn hp hr hz
    simp [googleLines, hp, hr, hz]

/-- Witness for C1: the azurerm extras of `cAz` in the claimed order. -/
theorem provider_block_field_rules_witness :
    azurermLines cAz
      = ["  features \x7b\x7d", "  subscription_id = \"X\"", "  tenant_id = \"Y\""] :=
  provider_block_field_rules.2.2.2.2.2.1 cAz "X" "Y" (by decide) rfl rfl

/-- Stanzas of equivalent data entries are permutations of each other. -/
theorem dataStanza_perm_of_equiv (d d' : DataTemplate) (h : dataEntryEquiv d d') :
    (dataStanza d).Perm (dataStanza d') := by
  obtain ⟨t, n, cfg, cm⟩ := d
  obtain ⟨t', n', cfg', cm'⟩ := d'
  obtain ⟨h1, h2, h3, h4⟩ := h
  simp only at h1 h2 h3 h4
  subst h1; subst h2; subst h3
  unfold dataStanza
  exact ((List.Perm.refl _).append (h4.map _)).append (List.Perm.refl _)

/-- Claim C10: `GenerateDataBlock` renders the config lines of each data
stanza in the iteration order of a Go map, so two representations of the
same config mapping can produce different blocks (`cD1`/`cD2`); for any
two configs whose data entries agree up to config iteration order, the
rendered stanzas agree up to a permutation of their lines, and so does
the whole stanza region. -/
theorem data_block_unordered_config :
    (List.Forall₂ dataEntryEquiv cD1.data cD2.data
      ∧ cD1.GenerateDataBlock "aws" ≠ cD2.GenerateDataBlock "aws")
    ∧ (∀ (c c' : ProviderTemplateConfig),
        List.Forall₂ dataEntryEquiv c.data c'.data →
        List.Forall₂ (fun d d' => (dataStanza d).Perm (dataStanza d')) c.data c'.data
        ∧ (c.data.flatMap dataStanza).Perm (c'.data.flatMap dataStanza)) := by
  refine ⟨⟨?_, by decide⟩, ?_⟩
  · exact List.Forall₂.cons ⟨rfl, rfl, rfl, by decide⟩ List.Forall₂.nil
  · intro c c' h
    have key : ∀ (l l' : List DataTemplate), List.Forall₂ dataEntryEquiv l l' →
        List.Forall₂ (fun d d' => (dataStanza d).Perm (dataStanza d')) l l'
        ∧ (l.flatMap dataStanza).Perm (l'.flatMap dataStanza) := by
      intro l l' hl
      induction hl with
      | nil => exact ⟨List.Forall₂.nil, List.Perm.refl _⟩
      | cons hd tl ih =>
        refine ⟨List.Forall₂.cons (dataStanza_perm_of_equiv _ _ hd) ih.1, ?_⟩
        simp only [List.flatMap_cons]
        exact (dataStanza_perm_of_equiv _ _ hd).append ih.2
    exact key c.data c'.data h

/-- Witness for C10 applying the order-insensitivity part at `cD1`/`cD2`. -/
theorem data_block_unordered_config_witness :
    List.Forall₂ (fun d d' => (dataStanza d).Perm (dataStanza d')) cD1.data cD2.data
    ∧ (cD1.data.flatMap dataStanza).Perm (cD2.data.flatMap dataStanza) :=
  data_block_unordered_config.2 cD1 cD2
    (List.Forall₂.cons ⟨rfl, rfl, rfl, by decide⟩ List.Forall₂.nil)

/-! ### Helper lemmas for the variables-block round trip -/

theorem data_append (s t : String) : (s ++ t).data = s.data ++ t.data := rfl

theorem mk_data (s : String) : String.mk s.data = s := rfl

theorem str_append_assoc (a b c : String) : a ++ b ++ c = a ++ (b ++ c) :=
  congrArg String.mk (List.append_assoc a.data b.data c.data)

theorem splitOnNl_no_nl (l : List Char) (h : '\n' ∉ l) : splitOnNl l = [l] := by
  induction l with
  | nil => rfl
  | cons c cs ih =>
    have hc : ¬ (c = '\n') := by
      intro hh
      exact h (by simp [hh])
    have hcs : '\n' ∉ cs := fun hm => h (List.mem_cons_of_mem _ hm)
    simp [splitOnNl, hc, ih hcs]

theorem splitOnNl_append (l rest : List Char) (h : '\n' ∉ l) :
    splitOnNl (l ++ '\n' :: rest) = l :: splitOnNl rest := by
  induction l with
  | nil => simp [splitOnNl]
  | cons c cs ih =>
    have hc : ¬ (c = '\n') := by
      intro hh
      exact h (by simp [hh])
    have hcs : '\n' ∉ cs := fun hm => h (List.mem_cons_of_mem _ hm)
    simp [splitOnNl, hc, ih hcs]

theorem splitLines_joinNl (lines : List String) (hne : lines ≠ [])
    (h : ∀ l ∈ lines, '\n' ∉ l.data) : splitLines (joinNl lines) = lines := by
  induction lines with
  | nil => exact absurd rfl hne
  | cons l ls ih =>
    cases ls with
    | nil =>
      have h1 : '\n' ∉ l.data := h l (by simp)
      simp [joinNl, splitLines, splitOnNl_no_nl l.data h1, mk_data]
    | cons l₂ ls₂ =>
      have h1 : '\n' ∉ l.data := h l (by simp)
      have hrest : ∀ x ∈ l₂ :: ls₂, '\n' ∉ x.data :=
        fun x hx => h x (List.mem_cons_of_mem _ hx)
      have ihr := ih (by simp) hrest
      have hnl : ("\n" : String).data = ['\n'] := rfl
      have hdata : (joinNl (l :: l₂ :: ls₂)).data
          = l.data ++ '\n' :: (joinNl (l₂ :: ls₂)).data := by
        show ((l ++ "\n") ++ joinNl (l₂ :: ls₂)).data = _
        simp [data_append, hnl]
      have hstep : splitLines (joinNl (l :: l₂ :: ls₂))
          = String.mk l.data :: splitLines (joinNl (l₂ :: ls₂)) := by
        unfold splitLines
        rw [hdata, splitOnNl_append _ _ h1, List.map_cons]
      rw [hstep, mk_data, ihr]

theorem stripLead_self_append (p t : List Char) : stripLead p (p ++ t) = some t := by
  induction p with
  | nil => rfl
  | cons a as ih => simp [stripLead, ih]

theorem stripPre_self_append (p t : String) : stripPre p (p ++ t) = some t := by
  simp [stripPre, data_append, stripLead_self_append, mk_data]

theorem stripSuf_self_append (suf t : String) : stripSuf suf (t ++ suf) = some t := by
  simp [stripSuf, data_append, List.reverse_append, stripLead_self_append, mk_data]

theorem stripPre_desc_ty (t : String) :
    stripPre "  description = " ("  type        = " ++ t) = none := rfl

theorem stripPre_desc_df (t : String) :
    stripPre "  description = " ("  default     = " ++ t) = none := rfl

theorem stripPre_desc_close : stripPre "  description = " "\x7d" = none := rfl

theorem stripPre_ty_df (t : String) :
    stripPre "  type        = " ("  default     = " ++ t) = none := rfl

theorem stripPre_ty_close : stripPre "  type        = " "\x7d" = none := rfl

theorem stripPre_df_close : stripPre "  default     = " "\x7d" = none := rfl

theorem goQuoteChar_printable (ch : Char) (h32 : 32 ≤ ch.toNat) (h127 : ch.toNat ≠ 127)
    (hq : ch ≠ '"') (hb : ch ≠ '\\') : goQuoteChar ch = [ch] := by
  have hne : ∀ (d : Char), d.toNat < 32 → ch ≠ d := by
    intro d hd he
    subst he
    omega
  have hflag : ¬ (ch.toNat < 32 ∨ ch.toNat = 127) := by omega
  simp [goQuoteChar, hq, hb, hne '\x07' (by decide), hne '\x08' (by decide),
        hne '\x0c' (by decide), hne '\n' (by decide), hne '\r' (by decide),
        hne '\t' (by decide), hne '\x0b' (by decide), hflag]

theorem flatMap_goQuoteChar_printable (cs : List Char)
    (h : ∀ ch ∈ cs, 32 ≤ ch.toNat ∧ ch.toNat ≠ 127 ∧ ch ≠ '"' ∧ ch ≠ '\\') :
    cs.flatMap goQuoteChar = cs := by
  induction cs with
  | nil => rfl
  | cons c cs ih =>
    obtain ⟨h1, h2, h3, h4⟩ := h c (by simp)
    simp [goQuoteChar_printable c h1 h2 h3 h4,
          ih (fun x hx => h x (List.mem_cons_of_mem _ hx))]

theorem goQuote_wf (s : String) (h : wfDesc s) : goQuote s = "\"" ++ s ++ "\"" := by
  unfold goQuote
  rw [flatMap_goQuoteChar_printable s.data h]
  rfl

theorem unquote_quote (s : String) : unquote ("\"" ++ (s ++ "\"")) = some s := by
  show unquote (String.mk ('"' :: (s.data ++ ['"']))) = some s
  simp [unquote, List.getLast?_concat, List.dropLast_concat, mk_data]

theorem no_nl_append (s t : String) (hs : '\n' ∉ s.data) (ht : '\n' ∉ t.data) :
    '\n' ∉ (s ++ t).data := by
  simp [data_append, hs, ht]

theorem mem_opt (p : Prop) [Decidable p] (x l : String)
    (h : l ∈ if p then [x] else ([] : List String)) : l = x := by
  split at h <;> simp_all

theorem append_left_ne_empty (s t : String) (hs : s.data ≠ []) : s ++ t ≠ "" := by
  intro he
  have hd : (s ++ t).data = ("" : String).data := congrArg String.data he
  rw [data_append] at hd
  simp [List.append_eq_nil] at hd
  exact hs hd.1

theorem wfDesc_no_nl (s : String) (h : wfDesc s) : '\n' ∉ s.data := by
  intro hm
  have h10 := (h '\n' hm).1
  exact absurd h10 (by decide)

theorem variableStanza_no_nl (v : VariableTemplate) (h : wfVariable v) :
    ∀ l ∈ variableStanza v, '\n' ∉ l.data := by
  obtain ⟨⟨hn1, _⟩, hd, ht, hdf⟩ := h
  intro l hl
  unfold variableStanza at hl
  rcases List.mem_append.mp hl with hA | hE
  rcases List.mem_append.mp hA with hA | hD
  rcases List.mem_append.mp hA with hA | hT
  rcases List.mem_append.mp hA with hA | hDe
  · rcases List.mem_cons.mp hA with rfl | hA
    · decide
    · rcases List.mem_cons.mp hA with rfl | hA
      · exact no_nl_append _ _ (no_nl_append _ _ (by decide) hn1) (by decide)
      · simp at hA
  · rw [mem_opt _ _ _ hDe, goQuote_wf _ hd]
    exact no_nl_append _ _ (by decide)
      (no_nl_append _ _ (no_nl_append _ _ (by decide) (wfDesc_no_nl _ hd)) (by decide))
  · rw [mem_opt _ _ _ hT]
    exact no_nl_append _ _ (by decide) ht
  · rw [mem_opt _ _ _ hD]
    exact no_nl_append _ _ (by decide) hdf
  · rcases List.mem_singleton.mp hE with rfl
    decide

theorem empty_not_mem_groupOfVar (v : VariableTemplate) : "" ∉ groupOfVar v := by
  intro hl
  unfold groupOfVar at hl
  rcases List.mem_cons.mp hl with h | h
  · exact append_left_ne_empty "variable \"" _ (by decide) h.symm
  rcases List.mem_append.mp h with h | hE
  rcases List.mem_append.mp h with h | hD
  rcases List.mem_append.mp h with hDe | hT
  · exact append_left_ne_empty "  description = " _ (by decide) (mem_opt _ _ _ hDe).symm
  · exact append_left_ne_empty "  type        = " _ (by decide) (mem_opt _ _ _ hT).symm
  · exact append_left_ne_empty "  default     = " _ (by decide) (mem_opt _ _ _ hD).symm
  · rcases List.mem_singleton.mp hE with h
    exact absurd h (by decide)

theorem variableStanza_eq (v : VariableTemplate) :
    variableStanza v = "" :: groupOfVar v := by
  unfold variableStanza groupOfVar
  simp

theorem takeGroup_append (g r : List String) (hg : "" ∉ g)
    (hr : r = [] ∨ ∃ r₂, r = "" :: r₂) :
    takeGroup (g ++ r) = (g, r) := by
  induction g with
  | nil =>
    rcases hr with rfl | ⟨r₂, rfl⟩
    · rfl
    · simp [takeGroup]
  | cons l g ih =>
    have hl : ¬ (l = "") := by
      intro hh
      exact hg (by simp [hh])
    have hg₂ : "" ∉ g := fun hm => hg (List.mem_cons_of_mem _ hm)
    simp [takeGroup, hl, ih hg₂]

theorem stanzaGroups_flatMap (vs : List VariableTemplate) :
    stanzaGroups (vs.flatMap variableStanza) = some (vs.map groupOfVar) := by
  induction vs with
  | nil => simp [stanzaGroups]
  | cons v vs ih =>
    have hrest : vs.flatMap variableStanza = []
        ∨ ∃ r₂, vs.flatMap variableStanza = "" :: r₂ := by
      cases vs with
      | nil => exact Or.inl rfl
      | cons w ws =>
        refine Or.inr ⟨groupOfVar w ++ ws.flatMap variableStanza, ?_⟩
        simp [List.flatMap_cons, variableStanza_eq]
    rw [List.flatMap_cons, variableStanza_eq,
        show ("" :: groupOfVar v) ++ vs.flatMap variableStanza
          = "" :: (groupOfVar v ++ vs.flatMap variableStanza) from rfl]
    simp [stanzaGroups, takeGroup_append _ _ (empty_not_mem_groupOfVar v) hrest, ih]

theorem parseGroup_groupOfVar (v : VariableTemplate) (hdv : wfDesc v.description) :
    parseGroup (groupOfVar v) = some v := by
  obtain ⟨nm, ds, ty, df⟩ := v
  by_cases h1 : ds = "" <;> by_cases h2 : ty = "" <;> by_cases h3 : df = "" <;>
    simp [parseGroup, groupOfVar, h1, h2, h3, parseOptLine, str_append_assoc,
          stripPre_self_append, stripSuf_self_append,
          stripPre_desc_ty, stripPre_desc_df, stripPre_desc_close,
          stripPre_ty_df, stripPre_ty_close, stripPre_df_close,
          goQuote_wf _ hdv, unquote_quote]

theorem parseGroups_map (vs : List VariableTemplate)
    (h : ∀ v ∈ vs, wfDesc v.description) :
    parseGroups (vs.map groupOfVar) = some vs := by
  induction vs with
  | nil => rfl
  | cons v vs ih =>
    simp [parseGroups, parseGroup_groupOfVar v (h v (by simp)),
          ih (fun x hx => h x (List.mem_cons_of_mem _ hx))]

/-- Counterexample to claim C4: the rendering of the variables block is
not injective — the two-variable config `cV1` and the one-variable config
`cV2` (whose name embeds quotes, braces and newlines) render to the
byte-identical block — so no reparse can recover the fields of both, and
no stanza count can equal N for both. -/
theorem variables_render_not_injective :
    cV1.GenerateVariablesBlock = cV2.GenerateVariablesBlock
    ∧ cV1.«variables» ≠ cV2.«variables»
    ∧ cV1.«variables».length = 2 ∧ cV2.«variables».length = 1 :=
  ⟨rfl, by decide, rfl, rfl⟩

/-- Claim C4 (amended): for every config with a nonempty variables list
of N well-formed entries (names without quote or newline, descriptions of
printable characters other than quote and backslash, types and defaults
without newline), `GenerateVariablesBlock` renders exactly N stanza
groups in input order, and the modelled reparse of the rendered block
recovers the fields (name, description, type, default) of the input
entries exactly; without the well-formedness restriction the rendering is
not injective and the round trip fails. -/
theorem variables_block_roundtrip (c : ProviderTemplateConfig)
    (hne : c.«variables» ≠ [])
    (hwf : ∀ v ∈ c.«variables», wfVariable v) :
    parseVariablesBlock c.GenerateVariablesBlock = some c.«variables»
    ∧ stanzaGroups (c.«variables».flatMap variableStanza)
        = some (c.«variables».map groupOfVar)
    ∧ (c.«variables».map groupOfVar).length = c.«variables».length
    ∧ parseGroups (c.«variables».map groupOfVar) = some c.«variables» := by
  have hnl : ∀ l ∈ variablesLines c, '\n' ∉ l.data := by
    intro l hl
    rcases List.mem_cons.mp hl with rfl | hl
    · decide
    · rcases List.mem_flatMap.mp hl with ⟨v, hv, hlv⟩
      exact variableStanza_no_nl v (hwf v hv) l hlv
  have hlen : ¬ (c.«variables».length = 0) := by
    simpa [List.length_eq_zero] using hne
  have hgen : c.GenerateVariablesBlock = joinNl (variablesLines c) := by
    simp [ProviderTemplateConfig.GenerateVariablesBlock, hlen]
  have hsplit : splitLines (joinNl (variablesLines c)) = variablesLines c :=
    splitLines_joinNl _ (by simp [variablesLines]) hnl
  have hgroups := stanzaGroups_flatMap c.«variables»
  have hparse : parseGroups (c.«variables».map groupOfVar) = some c.«variables» :=
    parseGroups_map _ (fun v hv => (hwf v hv).2.1)
  refine ⟨?_, hgroups, by simp, hparse⟩
  rw [hgen]
  unfold parseVariablesBlock
  rw [hsplit]
  unfold variablesLines
  simp [parseVariablesLines, hgroups, hparse]

/-- Witness for the amended C4 at the concrete two-variable config `cV3`. -/
theorem variables_block_roundtrip_witness :
    parseVariablesBlock cV3.GenerateVariablesBlock = some cV3.«variables»
    ∧ stanzaGroups (cV3.«variables».flatMap variableStanza)
        = some (cV3.«variables».map groupOfVar)
    ∧ (cV3.«variables».map groupOfVar).length = cV3.«variables».length
    ∧ parseGroups (cV3.«variables».map groupOfVar) = some cV3.«variables» :=
  variables_block_roundtrip cV3 (by decide) (by decide)

end CC
